import Mathlib

set_option maxRecDepth 8000

/-!
Shallow embedding of `src/opengw_analyzer.py` (OpenGW Enterprise PSP Analyzer).

Strings are modelled as `List Char` (Python `str` as a sequence of code
points).  Decoded JSON values are modelled by the inductive `Json`; JSON
numbers are modelled as integers only (the analysed payloads contain no
fractional or exponent literals, and `NaN`/`Infinity` never occur; an input
containing them makes the embedded decoder fail where CPython would produce
a float, a boundary none of the analysed properties touches).
-/

inductive Json : Type where
  | null : Json
  | bool : Bool → Json
  | num : Int → Json
  | str : List Char → Json
  | arr : List Json → Json
  | obj : List (List Char × Json) → Json

/-- JSON whitespace accepted by CPython's decoder: space, tab, LF, CR. -/
def skipWs (cs : List Char) : List Char :=
  cs.dropWhile (fun c => c == ' ' || c == '\t' || c == '\n' || c == '\r')

/-- Value of a hexadecimal digit, for string `\uXXXX` escapes. -/
def hexVal (c : Char) : Option Nat :=
  if '0' ≤ c ∧ c ≤ '9' then some (c.toNat - 48)
  else if 'a' ≤ c ∧ c ≤ 'f' then some (c.toNat - 87)
  else if 'A' ≤ c ∧ c ≤ 'F' then some (c.toNat - 55)
  else none

/-- Body of a JSON string literal, after the opening quote: returns the
decoded characters and the input remaining after the closing quote.
Strict mode: raw control characters below 0x20 are rejected, as in
`json.loads`.  (`\uXXXX` is decoded as a single code point; surrogate-pair
recombination is not modelled — no analysed payload uses it.) -/
def parseStrBody : Nat → List Char → Option (List Char × List Char)
  | 0, _ => none
  | _ + 1, [] => none
  | fuel + 1, c :: rest =>
    if c = '\"' then some ([], rest)
    else if c = '\\' then
      match rest with
      | '\"' :: r => (parseStrBody fuel r).map (fun p => ('\"' :: p.1, p.2))
      | '\\' :: r => (parseStrBody fuel r).map (fun p => ('\\' :: p.1, p.2))
      | '/' :: r => (parseStrBody fuel r).map (fun p => ('/' :: p.1, p.2))
      | 'b' :: r => (parseStrBody fuel r).map (fun p => ('\x08' :: p.1, p.2))
      | 'f' :: r => (parseStrBody fuel r).map (fun p => ('\x0c' :: p.1, p.2))
      | 'n' :: r => (parseStrBody fuel r).map (fun p => ('\n' :: p.1, p.2))
      | 'r' :: r => (parseStrBody fuel r).map (fun p => ('\x0d' :: p.1, p.2))
      | 't' :: r => (parseStrBody fuel r).map (fun p => ('\t' :: p.1, p.2))
      | 'u' :: h1 :: h2 :: h3 :: h4 :: r =>
        match hexVal h1, hexVal h2, hexVal h3, hexVal h4 with
        | some a, some b, some c3, some d =>
          (parseStrBody fuel r).map
            (fun p => (Char.ofNat (a * 4096 + b * 256 + c3 * 16 + d) :: p.1, p.2))
        | _, _, _, _ => none
      | _ => none
    else if c.toNat < 32 then none
    else (parseStrBody fuel rest).map (fun p => (c :: p.1, p.2))

def digitsToNat (ds : List Char) : Nat :=
  ds.foldl (fun acc c => acc * 10 + (c.toNat - 48)) 0

/-- Integer literal starting at the first digit (sign already consumed):
`0 | [1-9][0-9]*`, mirroring the JSON number grammar.  A following `.`,
`e` or `E` would make CPython produce a float; the embedding rejects it
(numbers are modelled as integers only). -/
def parseNumTail (cs : List Char) : Option (Int × List Char) :=
  let ds := if cs.headD ' ' = '0' then cs.take 1
            else cs.takeWhile (fun c => decide ('0' ≤ c) && decide (c ≤ '9'))
  let rest := cs.drop ds.length
  if ds = [] then none
  else
    match rest with
    | '.' :: _ => none
    | 'e' :: _ => none
    | 'E' :: _ => none
    | _ => some ((digitsToNat ds : Int), rest)

mutual

/-- One JSON value (leading whitespace already skipped by the caller),
mirroring `json.loads`'s recursive-descent scanner. -/
def parseVal : Nat → List Char → Option (Json × List Char)
  | 0, _ => none
  | fuel + 1, cs =>
    match cs with
    | '\x7b' :: rest =>
      match skipWs rest with
      | '\x7d' :: r2 => some (Json.obj [], r2)
      | r2 => (parseMembers fuel r2).map (fun p => (Json.obj p.1, p.2))
    | '[' :: rest =>
      match skipWs rest with
      | ']' :: r2 => some (Json.arr [], r2)
      | r2 => (parseElems fuel r2).map (fun p => (Json.arr p.1, p.2))
    | '\"' :: rest => (parseStrBody (rest.length + 1) rest).map (fun p => (Json.str p.1, p.2))
    | 't' :: 'r' :: 'u' :: 'e' :: rest => some (Json.bool true, rest)
    | 'f' :: 'a' :: 'l' :: 's' :: 'e' :: rest => some (Json.bool false, rest)
    | 'n' :: 'u' :: 'l' :: 'l' :: rest => some (Json.null, rest)
    | '-' :: rest => (parseNumTail rest).map (fun p => (Json.num (-p.1), p.2))
    | _ => (parseNumTail cs).map (fun p => (Json.num p.1, p.2))

/-- Non-empty member list of a JSON object, up to and including the
closing brace. -/
def parseMembers : Nat → List Char → Option (List (List Char × Json) × List Char)
  | 0, _ => none
  | fuel + 1, cs =>
    match cs with
    | '\"' :: rest =>
      match parseStrBody (rest.length + 1) rest with
      | some (key, r1) =>
        match skipWs r1 with
        | ':' :: r2 =>
          match parseVal fuel (skipWs r2) with
          | some (v, r3) =>
            match skipWs r3 with
            | ',' :: r4 => (parseMembers fuel (skipWs r4)).map (fun p => ((key, v) :: p.1, p.2))
            | '\x7d' :: r4 => some ([(key, v)], r4)
            | _ => none
          | none => none
        | _ => none
      | none => none
    | _ => none

/-- Non-empty element list of a JSON array, up to and including the
closing bracket. -/
def parseElems : Nat → List Char → Option (List Json × List Char)
  | 0, _ => none
  | fuel + 1, cs =>
    match parseVal fuel cs with
    | some (v, r1) =>
      match skipWs r1 with
      | ',' :: r2 => (parseElems fuel (skipWs r2)).map (fun p => (v :: p.1, p.2))
      | ']' :: r2 => some ([v], r2)
      | _ => none
    | none => none

end

/-- Embedding of `json.loads`: exactly one value, optionally surrounded by
whitespace; trailing data is an error. -/
def json_loads (cs : List Char) : Option Json :=
  match parseVal (cs.length + 1) (skipWs cs) with
  | some (v, rest) => if skipWs rest = [] then some v else none
  | none => none

/-- `json.loads` at the envelope call site of `parse_log_entry`: the
captured group always begins with `\x7b`, so a successful decode is
necessarily a JSON object (a Python `dict`). -/
def json_loads_obj (cs : List Char) : Option (List (List Char × Json)) :=
  match json_loads cs with
  | some (Json.obj m) => some m
  | _ => none

/-- Python `dict` subscript / `get` on a decoded JSON object: with duplicate
keys `json.loads` keeps the last occurrence, so lookup returns the last
binding of the key. -/
def dlookup (d : List (List Char × Json)) (k : List Char) : Option Json :=
  ((d.filter (fun p => decide (p.1 = k))).getLast?).map Prod.snd

/-!
Model of `re.search(r'\[([^\]]+)\]\[([^\]]+)\]\[([^\]]+)\]', content)`.
Each group `[^\]]+` is a greedy run of non-`]` characters followed by a
forced literal, so matching at a given start position is deterministic:
the group extends exactly to the next `]`.  `re.search` tries start
positions left to right.
-/

/-- Split off the characters before the first `]` together with the rest
after that `]`; fails when the input holds no `]`. -/
def splitAtRB : List Char → Option (List Char × List Char)
  | [] => none
  | c :: r => if c = ']' then some ([], r) else (splitAtRB r).map (fun p => (c :: p.1, p.2))

/-- Match one `\[([^\]]+)\]` anchored at the head of the input: an opening
bracket, a non-empty run of non-`]` characters (the capture), and the
closing bracket; returns the capture and the rest after the `]`. -/
def grabTok (cs : List Char) : Option (List Char × List Char) :=
  match cs with
  | '[' :: r =>
    match splitAtRB r with
    | some (a, r2) => if a = [] then none else some (a, r2)
    | none => none
  | _ => none

/-- Match `\[([^\]]+)\]\[([^\]]+)\]\[([^\]]+)\]` anchored at the head of the
input, returning the three captured groups. -/
def matchTripleAt (cs : List Char) : Option (List Char × List Char × List Char) :=
  match grabTok cs with
  | some (a, r2) =>
    match grabTok r2 with
    | some (b, r4) =>
      match grabTok r4 with
      | some (c, _) => some (a, b, c)
      | none => none
    | none => none
  | none => none

/-- `re.search` for the three-bracket pattern: leftmost start position wins. -/
def searchBrackets : List Char → Option (List Char × List Char × List Char)
  | [] => none
  | c :: r =>
    match matchTripleAt (c :: r) with
    | some t => some t
    | none => searchBrackets r

/-!
Model of `re.search(r'MESSAGE_ENVELOPE_CONTENT\]\[({.*})\]', content)`.
After the literal marker and the leading `\x7b` of the group, `.*` is
greedy and `.` excludes newlines, so the group runs to the last position
`j` on the same line with `content[j] = \x7d` and `content[j+1] = ]`.
-/

def markerStr : List Char := "MESSAGE_ENVELOPE_CONTENT][".data

/-- Largest `j` with `line[j] = \x7d` and `line[j+1] = ]` (both inside
`line`), the backtracking target of the greedy `.*`. -/
def lastClosePos (line : List Char) : Option Nat :=
  ((List.range line.length).filter
    (fun j => (line.getD j ' ' == '\x7d') && (line.getD (j + 1) ' ' == ']'))).getLast?

/-- Match the envelope pattern anchored at the head of the input, returning
the captured group (the `\x7b ... \x7d` text). -/
def envMatchAt (cs : List Char) : Option (List Char) :=
  if markerStr.isPrefixOf cs then
    match cs.drop markerStr.length with
    | '\x7b' :: tail =>
      let line := tail.takeWhile (fun c => c != '\n')
      match lastClosePos line with
      | some j => some ('\x7b' :: line.take (j + 1))
      | none => none
    | _ => none
  else none

/-- `re.search` for the envelope pattern: leftmost start position wins. -/
def findEnvelope : List Char → Option (List Char)
  | [] => none
  | c :: r =>
    match envMatchAt (c :: r) with
    | some g => some g
    | none => findEnvelope r

/-- Python's substring operator `needle in hay` on strings. -/
def pyInStr : List Char → List Char → Bool
  | needle, [] => needle.isEmpty
  | needle, c :: t => needle.isPrefixOf (c :: t) || pyInStr needle t

/-- Embedding of `identify_psp`: ordered first-match substring tests
(`'STONE' in content`, `'mundipagg' in content.lower()`, ...). -/
def identify_psp (content : List Char) : List Char :=
  if pyInStr "STONE_ANTOM".data content || pyInStr "STONE".data content then
    "Stone".data
  else if pyInStr "mundipagg".data (content.map Char.toLower)
      || pyInStr "MUNDIPAGG".data content then
    "Mundipagg".data
  else if pyInStr "ALIPW3BR".data content
      || pyInStr "alipay".data (content.map Char.toLower)
      || pyInStr "OPENAPIv2".data content then
    "Alipay".data
  else
    "Unknown".data

/-- One raw element of the top-level JSON array: an optional `content`
string and an optional `__time__` value.  (The spec's data model takes
`content`, when present, to be free text.) -/
structure RawEntry : Type where
  content : Option (List Char)
  time : Option (List Char)

/-- Embedding of the dict built by `parse_log_entry`. -/
structure Block : Type where
  id : Nat
  psp : List Char
  direction : List Char
  api : List Char
  protocol : List Char
  json_data : Option (List (List Char × Json))
  timestamp : List Char
  raw_content : List Char

/-- Embedding of `parse_log_entry(entry, block_id)`. -/
def parse_log_entry (entry : RawEntry) (block_id : Nat) : Option Block :=
  let content := entry.content.getD []
  match searchBrackets content with
  | none => none
  | some (protocol, api, direction) =>
    let psp := identify_psp content
    let json_data :=
      match findEnvelope content with
      | some grp => json_loads_obj grp
      | none => none
    some { id := block_id, psp := psp, direction := direction, api := api,
           protocol := protocol, json_data := json_data,
           timestamp := entry.time.getD [], raw_content := content }

/-- Loop body of `analyze_opengw_log`: `for i, entry in enumerate(data):
if 'content' in entry: ...` with `i` counting every raw entry. -/
def analyze_go : Nat → List RawEntry → List Block
  | _, [] => []
  | i, e :: rest =>
    match (if e.content.isSome then parse_log_entry e (i + 1) else none) with
    | some b => b :: analyze_go (i + 1) rest
    | none => analyze_go (i + 1) rest

/-- The block list collected by `analyze_opengw_log` from the decoded
top-level array (file I/O and the top-level `json.load` are external). -/
def analyze_blocks (entries : List RawEntry) : List Block := analyze_go 0 entries

/-- Embedding of one recommendation dict. -/
structure Recommendation : Type where
  title : String
  description : String
  impact : String
  priority : String
  implementation : String
  deriving DecidableEq, Repr

def rec3DS : Recommendation :=
  { title := "3D Secure Enhancement",
    description := "Enable 3D Secure 2.0 authentication to reduce fraud risk",
    impact := "30% fraud reduction",
    priority := "HIGH",
    implementation := "Set is3DSAuthentication: true and threeDSVersion: \"2.0\"" }

def recMasking : Recommendation :=
  { title := "Card Number Masking",
    description := "Implement proper card number masking for PCI compliance",
    impact := "PCI DSS compliance",
    priority := "HIGH",
    implementation := "Mask card number showing only last 4 digits" }

def recRouting : Recommendation :=
  { title := "PSP Routing Optimization",
    description := "Consider routing to Alipay for better latency performance",
    impact := "60% latency reduction",
    priority := "MEDIUM",
    implementation := "Implement smart PSP selection based on transaction amount and type" }

def recCompress : Recommendation :=
  { title := "Payload Compression",
    description := "Large payload detected, enable gzip compression",
    impact := "25% faster processing",
    priority := "MEDIUM",
    implementation := "Enable gzip compression for requests > 2KB" }

/-- Python `meta.get('is3DSAuthentication') == False` on the decoded JSON
value: `None == False` is `False`, `b == False` for a bool is `!b`, and by
Python numeric-boolean coercion `n == False` holds exactly for `n = 0`;
every other decoded value compares unequal to `False`. -/
def pyEqFalse : Option Json → Bool
  | some (Json.bool b) => !b
  | some (Json.num n) => decide (n = 0)
  | _ => false

/-- Rule 1 of `generate_optimizations` (source lines 162–169):
`if meta.get('is3DSAuthentication') == False: append(...)`. -/
def rule1Part (mm : List (List Char × Json)) : List Recommendation :=
  if pyEqFalse (dlookup mm "is3DSAuthentication".data) then [rec3DS] else []

/-- Python `'*' in v` on the decoded card-number value: substring search
for a string, key search for a dict, element search for a list.  For a
number, bool or `None` CPython raises `TypeError` (and such shapes are
decodable, e.g. a payload with a numeric `cardNo`); the model collapses
that error path into `true` (rule 2 does not fire), so theorems about
rule 2 carry a string-shape hypothesis confining them to the domain on
which the model agrees with CPython. -/
def pyHasStar : Json → Bool
  | Json.str s => '*' ∈ s
  | Json.obj o => o.any (fun p => decide (p.1 = ['*']))
  | Json.arr l =>
    l.any (fun x => match x with
           | Json.str s => decide (s = ['*'])
           | _ => false)
  | _ => true

/-- Rule 2 of `generate_optimizations` (source lines 172–179):
`if 'cardNo' in meta and '*' not in meta['cardNo']: append(...)`. -/
def rule2Part (mm : List (List Char × Json)) : List Recommendation :=
  match dlookup mm "cardNo".data with
  | some v => if pyHasStar v then [] else [recMasking]
  | none => []

/-- The payload-substructure guard of rules 1–2 (source lines 158–160):
`'paymentMethod' in json_data and 'paymentMethodMetaData' in
json_data['paymentMethod']`, followed by
`meta = json_data['paymentMethod']['paymentMethodMetaData']`.
A non-dict value in either position can make CPython raise
`TypeError`/`AttributeError` on the membership test or the subsequent
subscript (e.g. `'paymentMethodMetaData' in None` for a decodable payload
with `paymentMethod` null), in which case `generate_optimizations` emits
nothing; the model collapses that error path into `none` and continues,
so theorems that reach rules 3–4 past this guard carry shape hypotheses
(`rulesSafePayload` or the dict-shaped lookups) confining them to the
domain on which the model agrees with CPython. -/
def metaOf (d : List (List Char × Json)) : Option (List (List Char × Json)) :=
  match dlookup d "paymentMethod".data with
  | some (Json.obj pm) =>
    match dlookup pm "paymentMethodMetaData".data with
    | some (Json.obj mm) => some mm
    | _ => none
  | _ => none

/-- The payload-guarded rules 1–2 (source lines 158–179). -/
def rules12Part (d : List (List Char × Json)) : List Recommendation :=
  match metaOf d with
  | some mm => rule1Part mm ++ rule2Part mm
  | none => []

/-- Rule 3 of `generate_optimizations` (source lines 182–189):
`if block['psp'] == 'Stone': append(...)`. -/
def rule3Part (psp : List Char) : List Recommendation :=
  if psp = "Stone".data then [recRouting] else []

/-- Rule 4 of `generate_optimizations` (source lines 192–200):
`if len(block['raw_content']) > 2048: append(...)`. -/
def rule4Part (raw_content : List Char) : List Recommendation :=
  if raw_content.length > 2048 then [recCompress] else []

/-- Embedding of `generate_optimizations(block)`.  The early return
`if not block['json_data']: return optimizations` (source lines 152–153)
fires both for an absent payload (`None`) and for an empty decoded dict,
both falsy in Python; after it, the four rules append in declaration
order. -/
def generate_optimizations (block : Block) : List Recommendation :=
  match block.json_data with
  | none => []
  | some d =>
    if d.isEmpty then []
    else rules12Part d ++ rule3Part block.psp ++ rule4Part block.raw_content

/-- Payload shapes on which CPython's `generate_optimizations` runs rules
1–4 to completion without raising: the `paymentMethod` key is absent, or
the `paymentMethod` → `paymentMethodMetaData` path exposes dicts and the
`cardNo` value, when present, is a string.  (Other decodable shapes either
raise `TypeError`/`AttributeError` at source lines 158–173 — where the
model's collapsed error path diverges from CPython — or are benign
membership misses; the hypothesis is sufficient, not exhaustive.) -/
def rulesSafePayload (d : List (List Char × Json)) : Prop :=
  dlookup d "paymentMethod".data = none ∨
  ∃ pm, dlookup d "paymentMethod".data = some (Json.obj pm) ∧
    (dlookup pm "paymentMethodMetaData".data = none ∨
     ∃ mm, dlookup pm "paymentMethodMetaData".data = some (Json.obj mm) ∧
       (dlookup mm "cardNo".data = none ∨
        ∃ s, dlookup mm "cardNo".data = some (Json.str s)))

/-- A content string contains the three-token bracket pattern
`[A][B][C]`: three consecutive bracket-delimited non-empty tokens, each
free of `]`, somewhere in the string. -/
def hasTriple (cs : List Char) : Prop :=
  ∃ pre a b c post, a ≠ [] ∧ b ≠ [] ∧ c ≠ [] ∧ ']' ∉ a ∧ ']' ∉ b ∧ ']' ∉ c ∧
    cs = pre ++ '[' :: (a ++ ']' :: ('[' :: (b ++ ']' :: ('[' :: (c ++ ']' :: post)))))

/-! Concrete fixtures used by claim witnesses and counterexamples. -/

/-- Inner metadata dict wired into a payload exposing
`paymentMethod.paymentMethodMetaData`. -/
def pmOf (mm : List (List Char × Json)) : List (List Char × Json) :=
  [("paymentMethodMetaData".data, Json.obj mm)]

def dOf (mm : List (List Char × Json)) : List (List Char × Json) :=
  [("paymentMethod".data, Json.obj (pmOf mm))]

/-- A block whose decoded payload exposes the given payment-method metadata
section. -/
def mkMetaBlock (mm : List (List Char × Json)) : Block :=
  { id := 1, psp := "Unknown".data, direction := "C".data, api := "B".data,
    protocol := "A".data, json_data := some (dOf mm), timestamp := [],
    raw_content := "[A][B][C]".data }

def mmZero : List (List Char × Json) := [("is3DSAuthentication".data, Json.num 0)]

def mmFalse : List (List Char × Json) := [("is3DSAuthentication".data, Json.bool false)]

def mmTrue : List (List Char × Json) := [("is3DSAuthentication".data, Json.bool true)]

def mmCardPlain : List (List Char × Json) :=
  [("cardNo".data, Json.str "4111111111111111".data)]

def mmCardMasked : List (List Char × Json) :=
  [("cardNo".data, Json.str "4111****1111".data)]

/-- A pipeline-produced block: psp Stone, no envelope, short content. -/
def c1entry : RawEntry := { content := some "[A][B][C] STONE".data, time := none }

/-- A directly-given block with absent payload and 2049-character content. -/
def cb1big : Block :=
  { id := 1, psp := "Stone".data, direction := "C".data, api := "B".data,
    protocol := "A".data, json_data := none, timestamp := [],
    raw_content := List.replicate 2049 'x' }

def cb2 : Block :=
  { id := 2, psp := "Unknown".data, direction := "C".data, api := "B".data,
    protocol := "A".data, json_data := none, timestamp := [],
    raw_content := "[A][B][C]".data }

def c3content : List Char :=
  "[HTTP][PAY][OUTBOUND]...MESSAGE_ENVELOPE_CONTENT][\x7b\"paymentMethod\":\x7b\"paymentMethodMetaData\":\x7b\"is3DSAuthentication\":false,\"cardNo\":\"4111111111111111\"\x7d\x7d\x7d]... STONE ...".data

def c3entry : RawEntry := { content := some c3content, time := some "1594694911".data }

def cb7a : Block :=
  { id := 1, psp := "Unknown".data, direction := "C".data, api := "B".data,
    protocol := "A".data, json_data := some [("k".data, Json.null)], timestamp := [],
    raw_content := List.replicate 2049 'x' }

def cb7b : Block :=
  { id := 1, psp := "Unknown".data, direction := "C".data, api := "B".data,
    protocol := "A".data, json_data := some [("k".data, Json.null)], timestamp := [],
    raw_content := List.replicate 2048 'x' }

def c9content : List Char := "[A][B][C] MESSAGE_ENVELOPE_CONTENT][\x7boops\x7d]".data

/-! Helper lemmas about the embedded definitions. -/

lemma pyEqFalse_iff (v : Option Json) :
    pyEqFalse v = true ↔ v = some (Json.bool false) ∨ v = some (Json.num 0) := by
  rcases v with _ | j
  · simp [pyEqFalse]
  · cases j with
    | bool b => cases b <;> simp [pyEqFalse]
    | num n => simp [pyEqFalse]
    | null => simp [pyEqFalse]
    | str s => simp [pyEqFalse]
    | arr l => simp [pyEqFalse]
    | obj o => simp [pyEqFalse]

lemma gen_none {b : Block} (h : b.json_data = none) : generate_optimizations b = [] := by
  unfold generate_optimizations
  rw [h]

lemma gen_eq {b : Block} {d : List (List Char × Json)} (hjd : b.json_data = some d)
    (hd : d.isEmpty = false) :
    generate_optimizations b =
      rules12Part d ++ rule3Part b.psp ++ rule4Part b.raw_content := by
  unfold generate_optimizations
  rw [hjd]
  simp [hd]

lemma metaOf_eq {d pm mm : List (List Char × Json)}
    (hpm : dlookup d "paymentMethod".data = some (Json.obj pm))
    (hmm : dlookup pm "paymentMethodMetaData".data = some (Json.obj mm)) :
    metaOf d = some mm := by
  unfold metaOf
  rw [hpm]
  dsimp only
  rw [hmm]

lemma mem_rule1Part {x : Recommendation} {mm : List (List Char × Json)}
    (h : x ∈ rule1Part mm) : x = rec3DS := by
  unfold rule1Part at h
  split at h <;> simp_all

lemma mem_rule2Part {x : Recommendation} {mm : List (List Char × Json)}
    (h : x ∈ rule2Part mm) : x = recMasking := by
  unfold rule2Part at h
  rcases h1 : dlookup mm "cardNo".data with _ | v <;> rw [h1] at h
  · simp at h
  · dsimp only at h
    split at h <;> simp_all

lemma mem_rules12Part {x : Recommendation} {d : List (List Char × Json)}
    (h : x ∈ rules12Part d) : x = rec3DS ∨ x = recMasking := by
  unfold rules12Part at h
  rcases h1 : metaOf d with _ | mm <;> rw [h1] at h
  · simp at h
  · dsimp only at h
    rcases List.mem_append.mp h with h2 | h2
    · exact Or.inl (mem_rule1Part h2)
    · exact Or.inr (mem_rule2Part h2)

lemma mem_rule3Part {x : Recommendation} {p : List Char}
    (h : x ∈ rule3Part p) : x = recRouting := by
  unfold rule3Part at h
  split at h <;> simp_all

lemma mem_rule4Part {x : Recommendation} {r : List Char}
    (h : x ∈ rule4Part r) : x = recCompress := by
  unfold rule4Part at h
  split at h <;> simp_all

lemma rule1Part_iff (mm : List (List Char × Json)) :
    rec3DS ∈ rule1Part mm ↔
      pyEqFalse (dlookup mm "is3DSAuthentication".data) = true := by
  unfold rule1Part
  split <;> simp_all

lemma rule2Part_iff (mm : List (List Char × Json)) :
    recMasking ∈ rule2Part mm ↔
      ∃ v, dlookup mm "cardNo".data = some v ∧ pyHasStar v = false := by
  unfold rule2Part
  rcases h1 : dlookup mm "cardNo".data with _ | v
  · simp
  · dsimp only
    split <;> simp_all

lemma rule3Part_iff (p : List Char) :
    recRouting ∈ rule3Part p ↔ p = "Stone".data := by
  unfold rule3Part
  split <;> simp_all

lemma rule4Part_iff (r : List Char) :
    recCompress ∈ rule4Part r ↔ 2048 < r.length := by
  unfold rule4Part
  split <;> simp_all

lemma gen_rec3DS_iff {b : Block} {d pm mm : List (List Char × Json)}
    (hjd : b.json_data = some d) (hd : d.isEmpty = false)
    (hpm : dlookup d "paymentMethod".data = some (Json.obj pm))
    (hmm : dlookup pm "paymentMethodMetaData".data = some (Json.obj mm)) :
    rec3DS ∈ generate_optimizations b ↔
      pyEqFalse (dlookup mm "is3DSAuthentication".data) = true := by
  rw [gen_eq hjd hd]
  unfold rules12Part
  rw [metaOf_eq hpm hmm]
  dsimp only
  constructor
  · intro h
    rcases List.mem_append.mp h with h | h
    · rcases List.mem_append.mp h with h | h
      · rcases List.mem_append.mp h with h | h
        · exact (rule1Part_iff mm).mp h
        · exact absurd (mem_rule2Part h) (by decide)
      · exact absurd (mem_rule3Part h) (by decide)
    · exact absurd (mem_rule4Part h) (by decide)
  · intro h
    exact List.mem_append.mpr (Or.inl (List.mem_append.mpr
      (Or.inl (List.mem_append.mpr (Or.inl ((rule1Part_iff mm).mpr h))))))

lemma gen_recMasking_iff {b : Block} {d pm mm : List (List Char × Json)}
    (hjd : b.json_data = some d) (hd : d.isEmpty = false)
    (hpm : dlookup d "paymentMethod".data = some (Json.obj pm))
    (hmm : dlookup pm "paymentMethodMetaData".data = some (Json.obj mm)) :
    recMasking ∈ generate_optimizations b ↔
      ∃ v, dlookup mm "cardNo".data = some v ∧ pyHasStar v = false := by
  rw [gen_eq hjd hd]
  unfold rules12Part
  rw [metaOf_eq hpm hmm]
  dsimp only
  constructor
  · intro h
    rcases List.mem_append.mp h with h | h
    · rcases List.mem_append.mp h with h | h
      · rcases List.mem_append.mp h with h | h
        · exact absurd (mem_rule1Part h) (by decide)
        · exact (rule2Part_iff mm).mp h
      · exact absurd (mem_rule3Part h) (by decide)
    · exact absurd (mem_rule4Part h) (by decide)
  · intro h
    exact List.mem_append.mpr (Or.inl (List.mem_append.mpr
      (Or.inl (List.mem_append.mpr (Or.inr ((rule2Part_iff mm).mpr h))))))

lemma gen_recCompress_iff {b : Block} {d : List (List Char × Json)}
    (hjd : b.json_data = some d) (hd : d.isEmpty = false) :
    recCompress ∈ generate_optimizations b ↔ 2048 < b.raw_content.length := by
  rw [gen_eq hjd hd]
  constructor
  · intro h
    rcases List.mem_append.mp h with h | h
    · rcases List.mem_append.mp h with h | h
      · rcases mem_rules12Part h with h1 | h1 <;> exact absurd h1 (by decide)
      · exact absurd (mem_rule3Part h) (by decide)
    · exact (rule4Part_iff b.raw_content).mp h
  · intro h
    exact List.mem_append.mpr (Or.inr ((rule4Part_iff b.raw_content).mpr h))

/-! Soundness of the bracket-pattern search. -/

lemma splitAtRB_eq {cs t r : List Char} (h : splitAtRB cs = some (t, r)) :
    cs = t ++ ']' :: r ∧ ']' ∉ t := by
  induction cs generalizing t r with
  | nil => simp [splitAtRB] at h
  | cons c cs ih =>
    unfold splitAtRB at h
    by_cases hc : c = ']'
    · rw [if_pos hc] at h
      simp only [Option.some.injEq, Prod.mk.injEq] at h
      obtain ⟨rfl, rfl⟩ := h
      subst hc
      exact ⟨rfl, by simp⟩
    · rw [if_neg hc] at h
      rcases hsp : splitAtRB cs with _ | p <;> rw [hsp] at h
      · simp at h
      · obtain ⟨t0, r0⟩ := p
        simp only [Option.map_some', Option.some.injEq, Prod.mk.injEq] at h
        obtain ⟨rfl, rfl⟩ := h
        obtain ⟨h1, h2⟩ := ih hsp
        refine ⟨by rw [h1]; rfl, ?_⟩
        simp only [List.mem_cons, not_or]
        exact ⟨fun he => hc he.symm, h2⟩

lemma grabTok_eq {cs a r : List Char} (h : grabTok cs = some (a, r)) :
    cs = '[' :: (a ++ ']' :: r) ∧ a ≠ [] ∧ ']' ∉ a := by
  unfold grabTok at h
  split at h
  · next r1 =>
    rcases hsp : splitAtRB r1 with _ | p <;> rw [hsp] at h
    · simp at h
    · obtain ⟨a0, r0⟩ := p
      dsimp only at h
      split at h
      · simp at h
      · simp only [Option.some.injEq, Prod.mk.injEq] at h
        obtain ⟨rfl, rfl⟩ := h
        obtain ⟨h1, h2⟩ := splitAtRB_eq hsp
        exact ⟨by rw [h1], by assumption, h2⟩
  · simp at h

lemma matchTripleAt_sound {cs a b c : List Char}
    (h : matchTripleAt cs = some (a, b, c)) :
    ∃ post, a ≠ [] ∧ b ≠ [] ∧ c ≠ [] ∧ ']' ∉ a ∧ ']' ∉ b ∧ ']' ∉ c ∧
      cs = '[' :: (a ++ ']' :: ('[' :: (b ++ ']' :: ('[' :: (c ++ ']' :: post))))) := by
  unfold matchTripleAt at h
  rcases h1 : grabTok cs with _ | p1 <;> rw [h1] at h
  · simp at h
  · obtain ⟨a1, r2⟩ := p1
    dsimp only at h
    rcases h2 : grabTok r2 with _ | p2 <;> rw [h2] at h
    · simp at h
    · obtain ⟨b1, r4⟩ := p2
      dsimp only at h
      rcases h3 : grabTok r4 with _ | p3 <;> rw [h3] at h
      · simp at h
      · obtain ⟨c1, r6⟩ := p3
        simp only [Option.some.injEq, Prod.mk.injEq] at h
        obtain ⟨rfl, rfl, rfl⟩ := h
        obtain ⟨e1, ne1, nm1⟩ := grabTok_eq h1
        obtain ⟨e2, ne2, nm2⟩ := grabTok_eq h2
        obtain ⟨e3, ne3, nm3⟩ := grabTok_eq h3
        refine ⟨r6, ne1, ne2, ne3, nm1, nm2, nm3, ?_⟩
        rw [e1, e2, e3]

lemma searchBrackets_sound {cs : List Char} {t : List Char × List Char × List Char}
    (h : searchBrackets cs = some t) : hasTriple cs := by
  induction cs with
  | nil => simp [searchBrackets] at h
  | cons ch cs ih =>
    unfold searchBrackets at h
    rcases hm : matchTripleAt (ch :: cs) with _ | t0 <;> rw [hm] at h
    · obtain ⟨pre, a, b, c, post, ne1, ne2, ne3, nm1, nm2, nm3, he⟩ := ih h
      exact ⟨ch :: pre, a, b, c, post, ne1, ne2, ne3, nm1, nm2, nm3, by rw [he]; rfl⟩
    · obtain ⟨a, b, c⟩ := t0
      obtain ⟨post, ne1, ne2, ne3, nm1, nm2, nm3, he⟩ := matchTripleAt_sound hm
      exact ⟨[], a, b, c, post, ne1, ne2, ne3, nm1, nm2, nm3, by rw [he]; rfl⟩

lemma hasTriple_lbrack {cs : List Char} (h : hasTriple cs) : '[' ∈ cs := by
  obtain ⟨pre, a, b, c, post, _, _, _, _, _, _, he⟩ := h
  rw [he]
  exact List.mem_append.mpr (Or.inr (List.mem_cons_self _ _))

lemma parse_log_entry_id {e : RawEntry} {n : Nat} {b : Block}
    (h : parse_log_entry e n = some b) : b.id = n := by
  unfold parse_log_entry at h
  dsimp only at h
  rcases hs : searchBrackets (e.content.getD []) with _ | t <;> rw [hs] at h
  · simp at h
  · obtain ⟨p, a, dr⟩ := t
    simp only [Option.some.injEq] at h
    rw [← h]

lemma analyze_go_mem {b : Block} :
    ∀ (entries : List RawEntry) (i : Nat), b ∈ analyze_go i entries →
      ∃ j e, entries[j]? = some e ∧ e.content.isSome = true ∧
        parse_log_entry e b.id = some b ∧ b.id = i + j + 1 := by
  intro entries
  induction entries with
  | nil => intro i h; simp [analyze_go] at h
  | cons e rest ih =>
    intro i h
    unfold analyze_go at h
    rcases hp : (if e.content.isSome then parse_log_entry e (i + 1) else none)
        with _ | b0 <;> rw [hp] at h
    · obtain ⟨j, e0, hg, hc, hpar, hid⟩ := ih (i + 1) h
      exact ⟨j + 1, e0, by simpa using hg, hc, hpar, by omega⟩
    · rcases hcon : e.content.isSome with _ | _
      · rw [hcon] at hp; simp at hp
      · rw [hcon, if_pos rfl] at hp
        rcases List.mem_cons.mp h with rfl | hmem
        · have hid := parse_log_entry_id hp
          exact ⟨0, e, by simp, hcon, by rw [hid]; exact hp, by omega⟩
        · obtain ⟨j, e0, hg, hc, hpar, hid⟩ := ih (i + 1) hmem
          exact ⟨j + 1, e0, by simpa using hg, hc, hpar, by omega⟩

/-! The claims. -/

/-- C1 (counterexample): a block whose payload is absent and whose psp is
Stone receives no recommendations at all — `generate_optimizations` returns
before rules 3 and 4 when `json_data` is falsy; likewise a payload-less
block of 2049 characters receives none. -/
theorem C1_counterexample :
    (analyze_blocks [c1entry]).map
      (fun b => (b.psp, b.json_data.isSome, generate_optimizations b)) =
      [("Stone".data, false, [])] ∧
    cb1big.json_data = none ∧ cb1big.raw_content.length = 2049 ∧
    generate_optimizations cb1big = [] := by
  refine ⟨rfl, rfl, ?_, rfl⟩
  simp [cb1big]

/-- C1 (amended): when a block's payload is absent, `evaluate` emits no
recommendation at all — in particular neither the PSP-routing nor the
payload-compression recommendation; rules 3 and 4 fire only when a decoded
non-empty payload is present. -/
theorem C1_absent_payload_no_rules (b : Block) (h : b.json_data = none) :
    generate_optimizations b = [] :=
  gen_none h

theorem C1_witness : generate_optimizations cb1big = [] :=
  C1_absent_payload_no_rules cb1big rfl

/-- C2 (counterexample): with a content-less first entry and a
bracket-bearing second entry, the produced block has id 2, not 1 —
`analyze_opengw_log` passes `i + 1` where `i` enumerates all raw entries. -/
theorem C2_counterexample :
    (analyze_blocks [{ content := none, time := none },
                     { content := some "[A][B][C]".data, time := none }]).map Block.id =
      [2] := rfl

/-- C2 (amended): each produced block's id is its 1-based position among
all raw entries of the input array (the entry at index `id - 1` is the one
it was parsed from), not its position among content-bearing entries only. -/
theorem C2_id_is_position_among_all_entries (entries : List RawEntry) (b : Block)
    (h : b ∈ analyze_blocks entries) :
    ∃ e, entries[b.id - 1]? = some e ∧ e.content.isSome = true ∧
      parse_log_entry e b.id = some b := by
  obtain ⟨j, e, hg, hc, hpar, hid⟩ := analyze_go_mem entries 0 h
  have hj : b.id - 1 = j := by omega
  rw [hj]
  exact ⟨e, hg, hc, hpar⟩

theorem C2_witness :
    ∃ e, [({ content := none, time := none } : RawEntry),
          { content := some "[A][B][C]".data, time := none }][cb2.id - 1]? = some e ∧
      e.content.isSome = true ∧ parse_log_entry e cb2.id = some cb2 := by
  refine C2_id_is_position_among_all_entries _ cb2 ?_
  have h : analyze_blocks [({ content := none, time := none } : RawEntry),
      { content := some "[A][B][C]".data, time := none }] = [cb2] := rfl
  rw [h]
  exact List.mem_cons_self _ _

/-- C3: the end-to-end example — one entry with the spec's content and
`__time__ = "1594694911"` yields exactly one block with psp Stone,
protocol HTTP, api PAY, direction OUTBOUND, and evaluating that block
yields exactly the 3-D Secure (HIGH), card-masking (HIGH) and PSP-routing
(MEDIUM) recommendations, in that order. -/
theorem C3_end_to_end :
    (analyze_blocks [c3entry]).map
      (fun b => (b.protocol, b.api, b.direction, b.psp)) =
      [("HTTP".data, "PAY".data, "OUTBOUND".data, "Stone".data)] ∧
    (analyze_blocks [c3entry]).map generate_optimizations =
      [[rec3DS, recMasking, recRouting]] ∧
    rec3DS.priority = "HIGH" ∧ recMasking.priority = "HIGH" ∧
    recRouting.priority = "MEDIUM" :=
  ⟨rfl, rfl, rfl, rfl, rfl⟩

/-- C4 (counterexample): the 3-D Secure recommendation also fires when the
flag holds the JSON number 0, which is not the literal boolean false. -/
theorem C4_counterexample :
    dlookup mmZero "is3DSAuthentication".data = some (Json.num 0) ∧
    generate_optimizations (mkMetaBlock mmZero) = [rec3DS] :=
  ⟨rfl, rfl⟩

/-- C4 (amended): for a block whose decoded payload exposes a
`paymentMethod.paymentMethodMetaData` section, the 3-D Secure
recommendation is emitted iff the `is3DSAuthentication` flag is present
with a value Python-equal to `False` — the boolean false or the number 0;
it is not emitted when the flag is absent or true. -/
theorem C4_rule1_iff_python_false (b : Block) (d pm mm : List (List Char × Json))
    (hjd : b.json_data = some d) (hd : d.isEmpty = false)
    (hpm : dlookup d "paymentMethod".data = some (Json.obj pm))
    (hmm : dlookup pm "paymentMethodMetaData".data = some (Json.obj mm)) :
    rec3DS ∈ generate_optimizations b ↔
      (dlookup mm "is3DSAuthentication".data = some (Json.bool false) ∨
       dlookup mm "is3DSAuthentication".data = some (Json.num 0)) := by
  rw [gen_rec3DS_iff hjd hd hpm hmm, pyEqFalse_iff]

theorem C4_witness :
    rec3DS ∈ generate_optimizations (mkMetaBlock mmFalse) ∧
    (rec3DS ∈ generate_optimizations (mkMetaBlock mmTrue) ↔
      (dlookup mmTrue "is3DSAuthentication".data = some (Json.bool false) ∨
       dlookup mmTrue "is3DSAuthentication".data = some (Json.num 0))) :=
  ⟨(C4_rule1_iff_python_false (mkMetaBlock mmFalse) (dOf mmFalse) (pmOf mmFalse) mmFalse
      rfl rfl rfl rfl).mpr (Or.inl rfl),
   C4_rule1_iff_python_false (mkMetaBlock mmTrue) (dOf mmTrue) (pmOf mmTrue) mmTrue
      rfl rfl rfl rfl⟩

/-- C5: for a block whose decoded payload exposes a
`paymentMethod.paymentMethodMetaData` section whose `cardNo`, when present,
is a string, the card-number-masking recommendation is emitted iff a
`cardNo` field exists and its value contains no `*` character; the
condition does not mention the 3-D Secure flag, so this rule fires
independently of rule 1. -/
theorem C5_card_masking_iff (b : Block) (d pm mm : List (List Char × Json))
    (hjd : b.json_data = some d) (hd : d.isEmpty = false)
    (hpm : dlookup d "paymentMethod".data = some (Json.obj pm))
    (hmm : dlookup pm "paymentMethodMetaData".data = some (Json.obj mm))
    (hcard : ∀ v, dlookup mm "cardNo".data = some v → ∃ s, v = Json.str s) :
    recMasking ∈ generate_optimizations b ↔
      ∃ s, dlookup mm "cardNo".data = some (Json.str s) ∧ '*' ∉ s := by
  rw [gen_recMasking_iff hjd hd hpm hmm]
  constructor
  · rintro ⟨v, hv, hstar⟩
    obtain ⟨s, rfl⟩ := hcard v hv
    refine ⟨s, hv, ?_⟩
    simpa [pyHasStar] using hstar
  · rintro ⟨s, hs, hstar⟩
    exact ⟨Json.str s, hs, by simp [pyHasStar, hstar]⟩

theorem C5_witness :
    recMasking ∈ generate_optimizations (mkMetaBlock mmCardPlain) ∧
    (recMasking ∈ generate_optimizations (mkMetaBlock mmCardMasked) ↔
      ∃ s, dlookup mmCardMasked "cardNo".data = some (Json.str s) ∧ '*' ∉ s) :=
  ⟨(C5_card_masking_iff (mkMetaBlock mmCardPlain) (dOf mmCardPlain) (pmOf mmCardPlain)
      mmCardPlain rfl rfl rfl rfl
      (fun v h => ⟨"4111111111111111".data, (Option.some.inj h).symm⟩)).mpr
      ⟨"4111111111111111".data, rfl, by decide⟩,
   C5_card_masking_iff (mkMetaBlock mmCardMasked) (dOf mmCardMasked) (pmOf mmCardMasked)
      mmCardMasked rfl rfl rfl rfl
      (fun v h => ⟨"4111****1111".data, (Option.some.inj h).symm⟩)⟩

/-- C6: PSP identification is an ordered first-match chain whose first test
is the Stone one, so any content containing `STONE` (or `STONE_ANTOM`)
resolves to Stone regardless of the other markers it contains. -/
theorem C6_stone_first_match (content : List Char)
    (h : pyInStr "STONE_ANTOM".data content = true ∨
         pyInStr "STONE".data content = true) :
    identify_psp content = "Stone".data := by
  unfold identify_psp
  rcases h with h | h <;> simp [h]

theorem C6_witness : identify_psp "...STONE...OPENAPIv2...".data = "Stone".data :=
  C6_stone_first_match "...STONE...OPENAPIv2...".data (Or.inr rfl)

/-- C7 (counterexample): a block of 2049 characters whose payload is absent
receives no recommendations, so the payload-compression recommendation is
not emitted although the raw content length strictly exceeds 2048. -/
theorem C7_counterexample :
    cb1big.raw_content.length = 2049 ∧ cb1big.json_data = none ∧
    generate_optimizations cb1big = [] := by
  refine ⟨?_, rfl, rfl⟩
  simp [cb1big]

/-- C7 (amended): for a block whose payload is present, non-empty and of a
shape on which the rule engine completes without raising (`rulesSafePayload`:
`paymentMethod` absent, or dict-shaped `paymentMethod.paymentMethodMetaData`
with a string — or absent — `cardNo`), the payload-compression
recommendation is emitted iff the length of the entire raw content string
strictly exceeds 2048: exactly 2048 characters do not fire it, 2049 do.
For payload shapes outside this domain CPython raises `TypeError` before
reaching rule 4 and emits nothing, so no unconditional claim holds. -/
theorem C7_compression_iff (b : Block) (d : List (List Char × Json))
    (hjd : b.json_data = some d) (hd : d.isEmpty = false)
    (_hsafe : rulesSafePayload d) :
    recCompress ∈ generate_optimizations b ↔ 2048 < b.raw_content.length :=
  gen_recCompress_iff hjd hd

theorem C7_witness :
    recCompress ∈ generate_optimizations cb7a ∧
    (recCompress ∈ generate_optimizations cb7b ↔ 2048 < cb7b.raw_content.length) ∧
    cb7a.raw_content.length = 2049 ∧ cb7b.raw_content.length = 2048 :=
  ⟨(C7_compression_iff cb7a [("k".data, Json.null)] rfl rfl (Or.inl rfl)).mpr
      (by simp [cb7a]),
   C7_compression_iff cb7b [("k".data, Json.null)] rfl rfl (Or.inl rfl),
   by simp [cb7a], by simp [cb7b]⟩

/-- C8: an entry whose content contains no run of three consecutive
bracket-delimited tokens `[A][B][C]` yields no block: `parse_log_entry`
returns `none` for it. -/
theorem C8_no_triple_no_block (content : List Char) (ts : Option (List Char)) (n : Nat)
    (h : ¬ hasTriple content) :
    parse_log_entry { content := some content, time := ts } n = none := by
  rcases hs : searchBrackets content with _ | t
  · unfold parse_log_entry
    dsimp only [Option.getD]
    rw [hs]
  · exact absurd (searchBrackets_sound hs) h

theorem C8_witness :
    parse_log_entry { content := some "no pattern here".data, time := none } 1 = none :=
  C8_no_triple_no_block "no pattern here".data none 1
    (fun h => absurd (hasTriple_lbrack h) (by decide))

/-- C9: a failed decode of the embedded envelope is non-fatal — when the
bracket pattern matches and the captured envelope text fails to decode,
`parse_log_entry` still returns a block, with all metadata fields filled
and the payload absent.  (The embedded parser is a total function, so no
input makes it raise.) -/
theorem C9_decode_failure_nonfatal (content t : List Char) (n : Nat)
    (p a dr grp : List Char)
    (hb : searchBrackets content = some (p, a, dr))
    (he : findEnvelope content = some grp)
    (hj : json_loads_obj grp = none) :
    parse_log_entry { content := some content, time := some t } n =
      some { id := n, psp := identify_psp content, direction := dr, api := a,
             protocol := p, json_data := none, timestamp := t,
             raw_content := content } := by
  unfold parse_log_entry
  dsimp only [Option.getD]
  rw [hb]
  dsimp only
  rw [he]
  dsimp only
  rw [hj]

theorem C9_witness :
    parse_log_entry { content := some c9content, time := some "1".data } 1 =
      some { id := 1, psp := identify_psp c9content, direction := "C".data,
             api := "B".data, protocol := "A".data, json_data := none,
             timestamp := "1".data, raw_content := c9content } :=
  C9_decode_failure_nonfatal c9content "1".data 1 "A".data "B".data "C".data
    "\x7boops\x7d".data rfl rfl rfl

/-- C10: for a block whose decoded payload exposes a
`paymentMethod.paymentMethodMetaData` section in which the
`is3DSAuthentication` flag holds the JSON number 0, the 3-D Secure
recommendation fires, because the source compares the flag with
`== False` and `0 == False` holds in Python. -/
theorem C10_rule1_fires_on_zero (b : Block) (d pm mm : List (List Char × Json))
    (hjd : b.json_data = some d) (hd : d.isEmpty = false)
    (hpm : dlookup d "paymentMethod".data = some (Json.obj pm))
    (hmm : dlookup pm "paymentMethodMetaData".data = some (Json.obj mm))
    (h0 : dlookup mm "is3DSAuthentication".data = some (Json.num 0)) :
    rec3DS ∈ generate_optimizations b :=
  (gen_rec3DS_iff hjd hd hpm hmm).mpr (by rw [h0]; rfl)

theorem C10_witness : rec3DS ∈ generate_optimizations (mkMetaBlock mmZero) :=
  C10_rule1_fires_on_zero (mkMetaBlock mmZero) (dOf mmZero) (pmOf mmZero) mmZero
    rfl rfl rfl rfl rfl

/-! Sanity checks of the embedding on concrete values. -/

example : json_loads "\x7b\"a\": 1, \"b\": [true, null, \"x\"]\x7d".data =
    some (Json.obj [("a".data, Json.num 1),
      ("b".data, Json.arr [Json.bool true, Json.null, Json.str "x".data])]) := rfl

example : json_loads "\x7boops\x7d".data = none := rfl

example : json_loads "\x7b\"k\": 01\x7d".data = none := rfl

example : dlookup [("a".data, Json.num 1), ("a".data, Json.num 2)] "a".data =
    some (Json.num 2) := rfl

example : searchBrackets "xx[HTTP][PAY][OUTBOUND]yy".data =
    some ("HTTP".data, "PAY".data, "OUTBOUND".data) := rfl

example : searchBrackets "[][B][C]".data = none := rfl

example : searchBrackets "no brackets".data = none := rfl

example : findEnvelope "pre MESSAGE_ENVELOPE_CONTENT][\x7b\"a\":1\x7d] post".data =
    some "\x7b\"a\":1\x7d".data := rfl

example : findEnvelope "MESSAGE_ENVELOPE_CONTENT][\x7bx\x7d]y\x7dz]".data =
    some "\x7bx\x7d".data := rfl

example : findEnvelope "MESSAGE_ENVELOPE_CONTENT][\x7bnope".data = none := rfl

example : pyInStr "PAY".data "xxPAYzz".data = true := rfl

example : pyInStr "PAY".data "xxPAzz".data = false := rfl

example : identify_psp "xx STONE yy OPENAPIv2 zz".data = "Stone".data := rfl

example : identify_psp "MundiPagg".data = "Mundipagg".data := rfl

example : identify_psp "nothing".data = "Unknown".data := rfl
